import Mathlib

/-!
Shallow embedding of the request-correlation / process-lifecycle bridge of
the `mcp-interactive` MCP server (`src/index.js`, `src/initial_tools.js`).

Modelling conventions:

* JavaScript strings are Lean `String`s.  The JS string operations used by
  the source (`trim`, `startsWith`, `substring(n)`, `String(n)`,
  `JSON.stringify` on string arrays) are re-implemented below on the
  character-list representation so that they are executable and amenable to
  proof (`jsTrim`, `jsStartsWith`, `jsDrop`, `toString`,
  `jsonStringifyStringArray`).
* The module-level mutable state of `src/index.js` (`electronProcess`,
  `pendingRequests`, the CLI-derived `dialogTimeout`) is a `BridgeState`
  record.  Process handles are numbered by a counter `nextPid`; the fields
  `killed`, `spawned` and `spawnCount` are ghost history recording which
  pids were killed and what environment each spawn received - they let
  theorems speak about "the process was terminated" and "no process was
  spawned" without changing the behaviour of the translated code.
* `pendingRequests` is a JS `Map` keyed by `Date.now().toString()` in
  insertion order; it is modelled as an association list `List (Nat x Nat)`
  of (timestamp key, correlation-record id) with JS `Map.set` semantics
  (`mapSet`): an existing key is updated in place, a new key is appended.
  `Array.from(map.keys())[0]` is the head of the list.  Correlation records
  themselves (the promise `resolve` functions) are identified by serial
  numbers drawn from `nextRecordId`; fulfilling a record is modelled by
  emitting the pair (record id, classified Outcome).
* A promise resolution value `{ content: [{ text, type: "text" }] }` is
  modelled by the `Outcome` variant of the spec's data model plus
  `outcomeText`, which produces the literal text of the three branches of
  `handleUserResponse`.
* The stdout `data` handler of the spawned process trims the chunk, splits
  it into lines and processes each line; `processLine` is the translation
  of the per-line body of that loop, and `processLines` folds it over a
  list of lines in stream order.  Stderr handling and the `close`/`error`
  process events only log (the `close` event also clears the handle,
  translated as `handleProcessClose`); SIGINT/SIGTERM handling is
  process-level and not modelled.
-/

/-- Whitespace test used by the JS `trim` translation (space, tab, newline,
carriage return, vertical tab, form feed). -/
def jsIsWhitespace (c : Char) : Bool :=
  c == ' ' || c == '\t' || c == '\n' || c == '\r' || c == '\x0b' || c == '\x0c'

/-- Remove leading whitespace from a character list. -/
def trimLeftChars (l : List Char) : List Char :=
  l.dropWhile jsIsWhitespace

/-- Remove trailing whitespace from a character list. -/
def trimRightChars : List Char → List Char
  | [] => []
  | c :: t =>
    match trimRightChars t with
    | [] => if jsIsWhitespace c then [] else [c]
    | r => c :: r

/-- Translation of JS `String.prototype.trim`: remove leading and trailing
whitespace. -/
def jsTrim (s : String) : String :=
  ⟨trimRightChars (trimLeftChars s.data)⟩

/-- Translation of JS `s.startsWith(p)`. -/
def jsStartsWith (s p : String) : Bool :=
  decide (s.data.take p.data.length = p.data)

/-- Translation of JS `s.substring(n)` (drop the first `n` characters). -/
def jsDrop (s : String) (n : Nat) : String :=
  ⟨s.data.drop n⟩

/-- Lower-case hexadecimal digit, for JSON control-character escapes. -/
def hexDigitChar (n : Nat) : Char :=
  if n < 10 then Char.ofNat (48 + n) else Char.ofNat (87 + n)

/-- JSON escaping of a single character, as performed by `JSON.stringify`
on the characters of a string. -/
def jsonEscapeChar (c : Char) : String :=
  if c = '"' then "\\\""
  else if c = '\\' then "\\\\"
  else if c = '\x08' then "\\b"
  else if c = '\x0c' then "\\f"
  else if c = '\n' then "\\n"
  else if c = '\r' then "\\r"
  else if c = '\t' then "\\t"
  else if c.toNat < 32 then
    "\\u00" ++ ⟨[hexDigitChar (c.toNat / 16), hexDigitChar (c.toNat % 16)]⟩
  else ⟨[c]⟩

/-- JSON encoding of one string (quote and escape). -/
def jsonQuote (s : String) : String :=
  "\"" ++ String.join (s.data.map jsonEscapeChar) ++ "\""

/-- Translation of `JSON.stringify(arr)` for an array of strings, as used
for the `DIALOG_PREDEFINED_OPTIONS` handoff value. -/
def jsonStringifyStringArray (l : List String) : String :=
  "[" ++ String.intercalate "," (l.map jsonQuote) ++ "]"

/-- Normalized caller-visible outcome of a session (the spec's `Outcome`
variant); the three constructors correspond to the three resolution
branches of `handleUserResponse` in `src/index.js`. -/
inductive Outcome where
  | timedOut
  | emptyReply
  | replied (text : String)
deriving DecidableEq

/-- Literal `text` payload the code puts into the resolved MCP result for
each outcome (the three `resolve({ content: [...] })` branches of
`handleUserResponse`). -/
def outcomeText : Outcome → String
  | Outcome.timedOut => "User did not reply: Timeout occurred. Retry calling the function."
  | Outcome.emptyReply => "User replied with empty input. Retry calling the function."
  | Outcome.replied t => "User replied: " ++ t

/-- Branch structure of `handleUserResponse` in `src/index.js` (lines
117-142), mapping the raw `userResponse` string to the outcome it resolves
the pending request with: the in-band sentinel `'TIMEOUT'` first, then the
`!userResponse || userResponse.trim() === ''` empty check, else a reply. -/
def classifyResponse (userResponse : String) : Outcome :=
  if userResponse = "TIMEOUT" then Outcome.timedOut
  else if userResponse = "" ∨ jsTrim userResponse = "" then Outcome.emptyReply
  else Outcome.replied userResponse

/-- Environment-variable handoff computed by `startElectronGUIWithData`
and passed to the spawned presentation process (the `DIALOG_*` variables;
variables that merely clear IDE/runtime markers are not recorded). -/
structure SpawnEnv where
  dialogProjectName : Option String
  dialogMessage : Option String
  dialogPredefinedOptions : String
  dialogTimeoutValue : String
  dialogTextareaHeight : String
deriving DecidableEq

/-- One spawn of the external presentation process: the pid assigned to it
and the handoff environment it received. -/
structure SpawnRecord where
  pid : Nat
  env : SpawnEnv
deriving DecidableEq

/-- Module-level state of `src/index.js` plus ghost history (`killed`,
`spawned`, `spawnCount`) and the pid/record-id counters of the model. -/
structure BridgeState where
  dialogTimeout : Nat
  electronProcess : Option Nat
  pendingRequests : List (Nat × Nat)
  nextRecordId : Nat
  nextPid : Nat
  killed : List Nat
  spawned : List SpawnRecord
  spawnCount : Nat
deriving DecidableEq

/-- Initial state: no process, no pending requests, default CLI timeout 60. -/
def initState : BridgeState :=
  { dialogTimeout := 60, electronProcess := none, pendingRequests := [],
    nextRecordId := 0, nextPid := 0, killed := [], spawned := [], spawnCount := 0 }

/-- JS `Map.set` on the insertion-ordered association list: update an
existing key in place, append a fresh key at the end. -/
def mapSet (m : List (Nat × Nat)) (k v : Nat) : List (Nat × Nat) :=
  match m with
  | [] => [(k, v)]
  | (k0, v0) :: rest => if k0 = k then (k, v) :: rest else (k0, v0) :: mapSet rest k v

/-- Translation of `handleUserResponse` (src/index.js lines 110-144): take
the first key of `pendingRequests` (`Array.from(keys())[0]`); if the map is
empty do nothing; otherwise delete that entry and fulfil its record with
the classified outcome.  The emitted pair is (record id, Outcome). -/
def handleUserResponse (s : BridgeState) (userResponse : String) :
    BridgeState × Option (Nat × Outcome) :=
  match s.pendingRequests with
  | [] => (s, none)
  | (_, recordId) :: rest =>
    ({ s with pendingRequests := rest }, some (recordId, classifyResponse userResponse))

/-- Line marker for renderer text replies. -/
def TEXT_FROM_RENDERER_MARKER : String := "TEXT_FROM_RENDERER:"

/-- Translation of the per-line body of the stdout handler installed by
`startElectronGUIWithData` (src/index.js lines 79-90): trim the line,
ignore `DIALOG_CLOSED`, extract and trim the payload after
`TEXT_FROM_RENDERER:`, map `DIALOG_TIMEOUT` to the `'TIMEOUT'` sentinel,
ignore everything else. -/
def processLine (s : BridgeState) (line : String) : BridgeState × Option (Nat × Outcome) :=
  let trimmedLine := jsTrim line
  if trimmedLine = "DIALOG_CLOSED" then
    (s, none)
  else if jsStartsWith trimmedLine TEXT_FROM_RENDERER_MARKER then
    handleUserResponse s (jsTrim (jsDrop trimmedLine TEXT_FROM_RENDERER_MARKER.length))
  else if trimmedLine = "DIALOG_TIMEOUT" then
    handleUserResponse s "TIMEOUT"
  else
    (s, none)

/-- Process a list of stdout lines in stream order, collecting the record
fulfilments they emit. -/
def processLines (s : BridgeState) (lines : List String) :
    BridgeState × List (Nat × Outcome) :=
  match lines with
  | [] => (s, [])
  | line :: rest =>
    match processLine s line with
    | (s1, none) => processLines s1 rest
    | (s1, some o) =>
      let r := processLines s1 rest
      (r.1, o :: r.2)

/-- Classifier for lines that resolve the pending request (a
`TEXT_FROM_RENDERER:` reply or `DIALOG_TIMEOUT`); `DIALOG_CLOSED` and
diagnostic noise are non-terminal. -/
def isTerminalLine (line : String) : Bool :=
  jsStartsWith (jsTrim line) TEXT_FROM_RENDERER_MARKER
    || decide (jsTrim line = "DIALOG_TIMEOUT")

/-- Translation of `startElectronGUIWithData` (src/index.js lines 34-107):
kill any live process, compute the effective timeout (`timeoutOverride !=
null ? timeoutOverride : dialogTimeout`) and textarea-height string, and
spawn a fresh process with the `DIALOG_*` environment handoff. -/
def startElectronGUIWithData (s : BridgeState) (projectName message : Option String)
    (predefinedOptions : List String) (timeoutOverride : Option Nat)
    (textAreaHeight : Option Nat) : BridgeState :=
  let s1 :=
    match s.electronProcess with
    | some pid => { s with electronProcess := none, killed := pid :: s.killed }
    | none => s
  let timeoutToUse :=
    match timeoutOverride with
    | some t => t
    | none => s1.dialogTimeout
  let textAreaHeightValue :=
    match textAreaHeight with
    | some h => toString h
    | none => ""
  let env : SpawnEnv := {
    dialogProjectName := projectName
    dialogMessage := message
    dialogPredefinedOptions := jsonStringifyStringArray predefinedOptions
    dialogTimeoutValue := toString timeoutToUse
    dialogTextareaHeight := textAreaHeightValue }
  { s1 with
    electronProcess := some s1.nextPid
    nextPid := s1.nextPid + 1
    spawned := { pid := s1.nextPid, env := env } :: s1.spawned
    spawnCount := s1.spawnCount + 1 }

/-- Translation of `showDialog` (src/index.js lines 147-155): create a new
correlation record keyed by `Date.now().toString()` (the `now` argument),
store it in `pendingRequests`, start a new presentation process, and return
the not-yet-fulfilled record's id. -/
def showDialog (s : BridgeState) (now : Nat) (projectName message : Option String)
    (predefinedOptions : List String) : BridgeState × Nat :=
  let recordId := s.nextRecordId
  let s1 := { s with
    pendingRequests := mapSet s.pendingRequests now recordId
    nextRecordId := recordId + 1 }
  (startElectronGUIWithData s1 projectName message predefinedOptions none none, recordId)

/-- Structured arguments of a tool call as destructured by the
`CallToolRequestSchema` handler; absent fields are `none`. -/
structure ToolArgs where
  projectName : Option String
  message : Option String
  predefinedOptions : Option (List String)
  summary : Option String
deriving DecidableEq

/-- Result of dispatching one tool call: a pending (not yet fulfilled)
correlation record the caller awaits, or the thrown `Unknown tool` error. -/
inductive ToolCallResult where
  | pending (recordId : Nat)
  | unknownTool (errorMessage : String)
deriving DecidableEq

/-- Translation of the `CallToolRequestSchema` handler (src/index.js lines
180-205): `ask_user` delegates to `showDialog` (with `showDialog`'s `= []`
default applied when `predefinedOptions` is absent); `request_user_confirmation`
stores a record and spawns with timeout override `0` and textarea height
`300`; any other name throws `Unknown tool: <name>`.  No field validation
is performed. -/
def handleToolCall (s : BridgeState) (now : Nat) (name : String) (args : ToolArgs) :
    BridgeState × ToolCallResult :=
  if name = "ask_user" then
    let r := showDialog s now args.projectName args.message
      (match args.predefinedOptions with
       | some l => l
       | none => [])
    (r.1, ToolCallResult.pending r.2)
  else if name = "request_user_confirmation" then
    let recordId := s.nextRecordId
    let s1 := { s with
      pendingRequests := mapSet s.pendingRequests now recordId
      nextRecordId := recordId + 1 }
    (startElectronGUIWithData s1 args.projectName args.summary [] (some 0) (some 300),
      ToolCallResult.pending recordId)
  else
    (s, ToolCallResult.unknownTool ("Unknown tool: " ++ name))

/-- Translation of the `close` event handler of the spawned process
(src/index.js lines 98-101): log and clear the handle. -/
def handleProcessClose (s : BridgeState) : BridgeState :=
  { s with electronProcess := none }

theorem trimRight_cons (c : Char) (t : List Char) :
    trimRightChars (c :: t) =
      match trimRightChars t with
      | [] => if jsIsWhitespace c then [] else [c]
      | r => c :: r := rfl

theorem trimRight_cons_of_eq_nil (c : Char) (t : List Char) (h : trimRightChars t = []) :
    trimRightChars (c :: t) = if jsIsWhitespace c then [] else [c] := by
  rw [trimRight_cons, h]

theorem trimRight_cons_of_ne_nil (c : Char) (t : List Char) (h : trimRightChars t ≠ []) :
    trimRightChars (c :: t) = c :: trimRightChars t := by
  rw [trimRight_cons]
  cases hr : trimRightChars t with
  | nil => exact absurd hr h
  | cons a r => rfl

theorem trimRight_append_of_ne_nil (l₁ l₂ : List Char) (h : trimRightChars l₂ ≠ []) :
    trimRightChars (l₁ ++ l₂) = l₁ ++ trimRightChars l₂ := by
  induction l₁ with
  | nil => rfl
  | cons a t ih =>
    have ht : trimRightChars (t ++ l₂) ≠ [] := by
      rw [ih]
      intro hc
      exact h (List.append_eq_nil.mp hc).2
    rw [List.cons_append, trimRight_cons_of_ne_nil a (t ++ l₂) ht, ih, List.cons_append]

theorem trimRight_append_of_eq_nil (l₁ l₂ : List Char) (h : trimRightChars l₂ = []) :
    trimRightChars (l₁ ++ l₂) = trimRightChars l₁ := by
  induction l₁ with
  | nil => simpa using h
  | cons a t ih =>
    rw [List.cons_append, trimRight_cons, ih, trimRight_cons]

theorem trimRight_idem (l : List Char) :
    trimRightChars (trimRightChars l) = trimRightChars l := by
  induction l with
  | nil => rfl
  | cons c t ih =>
    cases hr : trimRightChars t with
    | nil =>
      rw [trimRight_cons_of_eq_nil c t hr]
      cases hw : jsIsWhitespace c with
      | true => simp [hw, trimRightChars]
      | false => simp [hw, trimRightChars]
    | cons a r =>
      have h1 : trimRightChars t ≠ [] := by rw [hr]; exact List.cons_ne_nil a r
      have h2 : trimRightChars (trimRightChars t) ≠ [] := by
        rw [ih, hr]; exact List.cons_ne_nil a r
      rw [trimRight_cons_of_ne_nil c t h1, trimRight_cons_of_ne_nil c (trimRightChars t) h2, ih]

theorem trimLeft_trimRight_comm (l : List Char) :
    trimLeftChars (trimRightChars l) = trimRightChars (trimLeftChars l) := by
  induction l with
  | nil => rfl
  | cons c t ih =>
    cases hw : jsIsWhitespace c with
    | true =>
      have hl : trimLeftChars (c :: t) = trimLeftChars t := by
        simp [trimLeftChars, List.dropWhile, hw]
      cases hr : trimRightChars t with
      | nil =>
        rw [trimRight_cons_of_eq_nil c t hr, hw, hl, ← ih, hr]
        simp [trimLeftChars]
      | cons a r =>
        have h1 : trimRightChars t ≠ [] := by rw [hr]; exact List.cons_ne_nil a r
        rw [trimRight_cons_of_ne_nil c t h1, hl, ← ih]
        simp [trimLeftChars, List.dropWhile, hw]
    | false =>
      have hl : trimLeftChars (c :: t) = c :: t := by
        simp [trimLeftChars, List.dropWhile, hw]
      cases hr : trimRightChars t with
      | nil =>
        rw [trimRight_cons_of_eq_nil c t hr, hw, hl, trimRight_cons_of_eq_nil c t hr, hw]
        simp [trimLeftChars, List.dropWhile, hw]
      | cons a r =>
        have h1 : trimRightChars t ≠ [] := by rw [hr]; exact List.cons_ne_nil a r
        rw [trimRight_cons_of_ne_nil c t h1, hl, trimRight_cons_of_ne_nil c t h1]
        simp [trimLeftChars, List.dropWhile, hw]

theorem trimLeft_idem (l : List Char) :
    trimLeftChars (trimLeftChars l) = trimLeftChars l := by
  induction l with
  | nil => rfl
  | cons c t ih =>
    cases hw : jsIsWhitespace c with
    | true => simpa [trimLeftChars, List.dropWhile, hw] using ih
    | false => simp [trimLeftChars, List.dropWhile, hw]

theorem jsTrim_idem (s : String) : jsTrim (jsTrim s) = jsTrim s := by
  show (⟨trimRightChars (trimLeftChars (trimRightChars (trimLeftChars s.data)))⟩ : String) = _
  rw [trimLeft_trimRight_comm, trimRight_idem, trimLeft_idem]
  rfl

theorem trimRight_marker_append (pd : List Char) :
    trimRightChars ("TEXT_FROM_RENDERER:".data ++ pd)
      = "TEXT_FROM_RENDERER:".data ++ trimRightChars pd := by
  cases hr : trimRightChars pd with
  | nil =>
    rw [trimRight_append_of_eq_nil _ _ hr]
    decide
  | cons a r =>
    have h1 : trimRightChars pd ≠ [] := by rw [hr]; exact List.cons_ne_nil a r
    rw [trimRight_append_of_ne_nil _ _ h1, hr]

theorem jsTrim_marker_append (payload : String) :
    jsTrim (TEXT_FROM_RENDERER_MARKER ++ payload)
      = ⟨"TEXT_FROM_RENDERER:".data ++ trimRightChars payload.data⟩ := by
  show (⟨trimRightChars (trimLeftChars ("TEXT_FROM_RENDERER:".data ++ payload.data))⟩ : String) = _
  have hl : trimLeftChars ("TEXT_FROM_RENDERER:".data ++ payload.data)
      = "TEXT_FROM_RENDERER:".data ++ payload.data := rfl
  rw [hl, trimRight_marker_append]

theorem processLine_marker (s : BridgeState) (payload : String) :
    processLine s (TEXT_FROM_RENDERER_MARKER ++ payload)
      = handleUserResponse s (jsTrim payload) := by
  have htrim := jsTrim_marker_append payload
  have hne : jsTrim (TEXT_FROM_RENDERER_MARKER ++ payload) ≠ "DIALOG_CLOSED" := by
    rw [htrim]
    intro h
    have hdata : "TEXT_FROM_RENDERER:".data ++ trimRightChars payload.data
        = "DIALOG_CLOSED".data := congrArg String.data h
    have hd : ("TEXT_FROM_RENDERER:".data ++ trimRightChars payload.data).head?
        = ("DIALOG_CLOSED".data).head? := congrArg List.head? hdata
    rw [show ("TEXT_FROM_RENDERER:".data ++ trimRightChars payload.data).head? = some 'T' from rfl,
      show ("DIALOG_CLOSED".data).head? = some 'D' from rfl] at hd
    exact absurd hd (by decide)
  have hsw : jsStartsWith (jsTrim (TEXT_FROM_RENDERER_MARKER ++ payload))
      TEXT_FROM_RENDERER_MARKER = true := by
    rw [htrim]
    rfl
  have hdrop : jsDrop (jsTrim (TEXT_FROM_RENDERER_MARKER ++ payload))
      TEXT_FROM_RENDERER_MARKER.length = ⟨trimRightChars payload.data⟩ := by
    rw [htrim]
    rfl
  have huser : jsTrim (⟨trimRightChars payload.data⟩ : String) = jsTrim payload := by
    show (⟨trimRightChars (trimLeftChars (trimRightChars payload.data))⟩ : String) = _
    rw [trimLeft_trimRight_comm, trimRight_idem]
    rfl
  show (if jsTrim (TEXT_FROM_RENDERER_MARKER ++ payload) = "DIALOG_CLOSED" then _ else _) = _
  rw [if_neg hne, if_pos hsw, hdrop, huser]

theorem mapSet_fresh (m : List (Nat × Nat)) (k v : Nat)
    (h : ∀ p ∈ m, p.1 ≠ k) : mapSet m k v = m ++ [(k, v)] := by
  induction m with
  | nil => rfl
  | cons a t ih =>
    obtain ⟨k0, v0⟩ := a
    have hk : k0 ≠ k := h (k0, v0) (List.mem_cons_self _ _)
    rw [show mapSet ((k0, v0) :: t) k v
        = if k0 = k then (k, v) :: t else (k0, v0) :: mapSet t k v from rfl]
    rw [if_neg hk, ih (fun p hp => h p (List.mem_cons_of_mem _ hp)), List.cons_append]

theorem processLine_of_not_terminal (s : BridgeState) (line : String)
    (h : isTerminalLine line = false) : processLine s line = (s, none) := by
  have hb : (jsStartsWith (jsTrim line) TEXT_FROM_RENDERER_MARKER = false)
      ∧ jsTrim line ≠ "DIALOG_TIMEOUT" := by
    constructor
    · cases hsw : jsStartsWith (jsTrim line) TEXT_FROM_RENDERER_MARKER with
      | false => rfl
      | true => simp [isTerminalLine, hsw] at h
    · intro he
      simp [isTerminalLine, he] at h
  show (if jsTrim line = "DIALOG_CLOSED" then _ else _) = _
  by_cases hc : jsTrim line = "DIALOG_CLOSED"
  · rw [if_pos hc]
  · rw [if_neg hc]
    rw [show jsStartsWith (jsTrim line) TEXT_FROM_RENDERER_MARKER = false from hb.1]
    rw [if_neg (by simp), if_neg hb.2]

theorem handleToolCall_ask_user_eq (s : BridgeState) (now : Nat) (args : ToolArgs) :
    handleToolCall s now "ask_user" args
      = (startElectronGUIWithData
          { s with pendingRequests := mapSet s.pendingRequests now s.nextRecordId,
                   nextRecordId := s.nextRecordId + 1 }
          args.projectName args.message
          (match args.predefinedOptions with
           | some l => l
           | none => []) none none,
         ToolCallResult.pending s.nextRecordId) := rfl

theorem start_pending (s : BridgeState) (pn msg : Option String) (po : List String)
    (tov tah : Option Nat) :
    (startElectronGUIWithData s pn msg po tov tah).pendingRequests = s.pendingRequests := by
  unfold startElectronGUIWithData
  cases s.electronProcess <;> rfl

theorem start_electronProcess (s : BridgeState) (pn msg : Option String) (po : List String)
    (tov tah : Option Nat) :
    (startElectronGUIWithData s pn msg po tov tah).electronProcess = some s.nextPid := by
  unfold startElectronGUIWithData
  cases s.electronProcess <;> rfl

theorem start_killed_of_some (s : BridgeState) (pn msg : Option String) (po : List String)
    (tov tah : Option Nat) (p : Nat) (h : s.electronProcess = some p) :
    (startElectronGUIWithData s pn msg po tov tah).killed = p :: s.killed := by
  unfold startElectronGUIWithData
  rw [h]

theorem start_killed_mem (s : BridgeState) (pn msg : Option String) (po : List String)
    (tov tah : Option Nat) (p : Nat) (h : s.electronProcess = some p) :
    p ∈ (startElectronGUIWithData s pn msg po tov tah).killed := by
  rw [start_killed_of_some s pn msg po tov tah p h]
  exact List.mem_cons_self _ _

/-- C9 (confirmed): processing an output-stream line equal to `DIALOG_CLOSED`
leaves every piece of bridge state unchanged and produces no outcome - the
`DIALOG_CLOSED` branch of the stdout handler is an empty comment. -/
theorem C9_dialog_closed_noop (s : BridgeState) :
    processLine s "DIALOG_CLOSED" = (s, none) := rfl

/-- C10 (confirmed): any terminal (or other) stdout line arriving while the
pending-request table is empty is silently ignored: `handleUserResponse`
finds no first key, so no outcome is produced, no error is raised, and the
state is unchanged.  Together with the fact that resolving a record deletes
it from the table, each correlation record is fulfilled at most once. -/
theorem C10_empty_table_ignored (s : BridgeState) (line : String)
    (h : s.pendingRequests = []) :
    processLine s line = (s, none) := by
  have hh : ∀ u, handleUserResponse s u = (s, none) := by
    intro u
    unfold handleUserResponse
    rw [h]
  show (if jsTrim line = "DIALOG_CLOSED" then _ else _) = _
  by_cases h1 : jsTrim line = "DIALOG_CLOSED"
  · rw [if_pos h1]
  · rw [if_neg h1]
    by_cases h2 : jsStartsWith (jsTrim line) TEXT_FROM_RENDERER_MARKER = true
    · rw [if_pos h2, hh]
    · rw [if_neg h2]
      by_cases h3 : jsTrim line = "DIALOG_TIMEOUT"
      · rw [if_pos h3, hh]
      · rw [if_neg h3]

/-- C10 witness: after the bridge starts with an empty table, a `DIALOG_TIMEOUT`
line is ignored outright. -/
theorem C10_empty_table_ignored_witness :
    processLine initState "DIALOG_TIMEOUT" = (initState, none) :=
  C10_empty_table_ignored initState "DIALOG_TIMEOUT" rfl

/-- C5 (confirmed): a `TEXT_FROM_RENDERER:` line whose payload is empty or
all-whitespace resolves the oldest pending record with the EmptyReply
outcome, never Replied. -/
theorem C5_blank_payload_empty_reply (s : BridgeState) (payload : String)
    (k r : Nat) (rest : List (Nat × Nat))
    (hpend : s.pendingRequests = (k, r) :: rest)
    (hblank : jsTrim payload = "") :
    processLine s (TEXT_FROM_RENDERER_MARKER ++ payload)
      = ({ s with pendingRequests := rest }, some (r, Outcome.emptyReply)) := by
  rw [processLine_marker, hblank]
  unfold handleUserResponse
  rw [hpend]
  rfl

/-- C5 witness: an all-whitespace payload after one `ask_user` call yields
EmptyReply for record 0. -/
theorem C5_blank_payload_empty_reply_witness :
    processLine (handleToolCall initState 1 "ask_user"
        ⟨some "proj", some "question", none, none⟩).1
      (TEXT_FROM_RENDERER_MARKER ++ "   ")
      = ({ (handleToolCall initState 1 "ask_user"
            ⟨some "proj", some "question", none, none⟩).1 with pendingRequests := [] },
         some (0, Outcome.emptyReply)) :=
  C5_blank_payload_empty_reply _ "   " 1 0 [] (by decide) (by decide)

/-- C3 counterexample: the line `TEXT_FROM_RENDERER:TIMEOUT` has a nonblank
payload after trimming, yet classification produces the TimedOut outcome
(not Replied), because `handleUserResponse` treats the payload string
`TIMEOUT` as the in-band timeout sentinel. -/
theorem C3_timeout_payload_counterexample :
    jsTrim "TIMEOUT" ≠ "" ∧
    (processLine (handleToolCall initState 1 "ask_user"
        ⟨some "proj", some "question", none, none⟩).1
      (TEXT_FROM_RENDERER_MARKER ++ "TIMEOUT")).2
      = some (0, Outcome.timedOut) := by decide

/-- C3 amended (proved): a `TEXT_FROM_RENDERER:` line whose payload is
nonblank after trimming and not equal to the sentinel string `TIMEOUT`
resolves the oldest pending record with Replied carrying the trimmed
payload. -/
theorem C3_nonblank_payload_replied (s : BridgeState) (payload : String)
    (k r : Nat) (rest : List (Nat × Nat))
    (hpend : s.pendingRequests = (k, r) :: rest)
    (hnb : jsTrim payload ≠ "")
    (hnt : jsTrim payload ≠ "TIMEOUT") :
    processLine s (TEXT_FROM_RENDERER_MARKER ++ payload)
      = ({ s with pendingRequests := rest },
         some (r, Outcome.replied (jsTrim payload))) := by
  have hcl : classifyResponse (jsTrim payload) = Outcome.replied (jsTrim payload) := by
    have hor : ¬(jsTrim payload = "" ∨ jsTrim (jsTrim payload) = "") := by
      intro hor
      cases hor with
      | inl h1 => exact hnb h1
      | inr h2 => rw [jsTrim_idem] at h2; exact hnb h2
    unfold classifyResponse
    rw [if_neg hnt, if_neg hor]
  rw [processLine_marker]
  unfold handleUserResponse
  rw [hpend, hcl]

/-- C3 witness: the payload ` option a ` (with surrounding whitespace) is
delivered as `Replied "option a"` for record 0. -/
theorem C3_nonblank_payload_replied_witness :
    processLine (handleToolCall initState 1 "ask_user"
        ⟨some "proj", some "question", none, none⟩).1
      (TEXT_FROM_RENDERER_MARKER ++ " option a ")
      = ({ (handleToolCall initState 1 "ask_user"
            ⟨some "proj", some "question", none, none⟩).1 with pendingRequests := [] },
         some (0, Outcome.replied (jsTrim " option a "))) :=
  C3_nonblank_payload_replied _ " option a " 1 0 [] (by decide) (by decide) (by decide)

/-- C6 (confirmed): a `DIALOG_TIMEOUT` line arriving while a record is
pending resolves it with the TimedOut outcome, regardless of any prior
non-terminal lines (`DIALOG_CLOSED` or diagnostic noise) in the stream. -/
theorem C6_timeout_resolves (s : BridgeState) (lines : List String)
    (k r : Nat) (rest : List (Nat × Nat))
    (hpend : s.pendingRequests = (k, r) :: rest)
    (hnt : ∀ l ∈ lines, isTerminalLine l = false) :
    (processLines s (lines ++ ["DIALOG_TIMEOUT"])).2 = [(r, Outcome.timedOut)] := by
  revert hnt
  induction lines with
  | nil =>
    intro _
    have h1 : processLine s "DIALOG_TIMEOUT"
        = ({ s with pendingRequests := rest }, some (r, Outcome.timedOut)) := by
      show handleUserResponse s "TIMEOUT" = _
      unfold handleUserResponse
      rw [hpend]
      rfl
    show (processLines s ["DIALOG_TIMEOUT"]).2 = _
    unfold processLines
    rw [h1]
    rfl
  | cons l t ih =>
    intro hnt
    have hl : processLine s l = (s, none) :=
      processLine_of_not_terminal s l (hnt l (List.mem_cons_self _ _))
    show (processLines s ((l :: t) ++ ["DIALOG_TIMEOUT"])).2 = _
    rw [List.cons_append]
    unfold processLines
    rw [hl]
    exact ih (fun x hx => hnt x (List.mem_cons_of_mem _ hx))

/-- C6 witness: after one `ask_user` call, the stream `DIALOG_CLOSED`, a
noise line, then `DIALOG_TIMEOUT` resolves record 0 as TimedOut. -/
theorem C6_timeout_resolves_witness :
    (processLines (handleToolCall initState 1 "ask_user"
        ⟨some "proj", some "question", none, none⟩).1
      (["DIALOG_CLOSED", "Electron debug noise"] ++ ["DIALOG_TIMEOUT"])).2
      = [(0, Outcome.timedOut)] :=
  C6_timeout_resolves _ ["DIALOG_CLOSED", "Electron debug noise"] 1 0 []
    (by decide) (by decide)

/-- C8 (confirmed): a tool call whose name is neither `ask_user` nor
`request_user_confirmation` fails with the `Unknown tool` error and leaves
the state (in particular the spawn count) unchanged. -/
theorem C8_unknown_tool (s : BridgeState) (now : Nat) (name : String) (args : ToolArgs)
    (h1 : name ≠ "ask_user") (h2 : name ≠ "request_user_confirmation") :
    handleToolCall s now name args
      = (s, ToolCallResult.unknownTool ("Unknown tool: " ++ name)) := by
  unfold handleToolCall
  rw [if_neg h1, if_neg h2]

/-- C8 witness: the unknown name `do_something_else` is rejected without any
state change. -/
theorem C8_unknown_tool_witness :
    handleToolCall initState 3 "do_something_else" ⟨none, none, none, none⟩
      = (initState, ToolCallResult.unknownTool ("Unknown tool: " ++ "do_something_else")) :=
  C8_unknown_tool initState 3 "do_something_else" ⟨none, none, none, none⟩
    (by decide) (by decide)

/-- C7 (confirmed): every `request_user_confirmation` call spawns the
presentation process with the timeout handoff forced to `"0"` (no timeout,
overriding whatever CLI-default `dialogTimeout` the state carries), a
response-area height handoff of `"300"`, and an empty JSON options list. -/
theorem C7_confirmation_spawn (s : BridgeState) (now : Nat) (args : ToolArgs) :
    ((handleToolCall s now "request_user_confirmation" args).1.spawned).head?
      = some { pid := s.nextPid,
               env := { dialogProjectName := args.projectName,
                        dialogMessage := args.summary,
                        dialogPredefinedOptions := "[]",
                        dialogTimeoutValue := "0",
                        dialogTextareaHeight := "300" } } := by
  have h1 : jsonStringifyStringArray [] = "[]" := rfl
  have h2 : toString (0 : Nat) = "0" := rfl
  have h3 : toString (300 : Nat) = "300" := rfl
  obtain ⟨dt, ep, pr, nr, np, kl, sp, sc⟩ := s
  rw [← h1, ← h2, ← h3]
  cases ep <;> rfl

/-- C4 counterexample: an `ask_user` call with the required `message` field
missing is not rejected - the dispatcher returns a pending correlation
record and one external process is spawned. -/
theorem C4_missing_field_counterexample :
    (handleToolCall initState 5 "ask_user" ⟨some "proj", none, none, none⟩).2
      = ToolCallResult.pending 0 ∧
    (handleToolCall initState 5 "ask_user" ⟨some "proj", none, none, none⟩).1.spawnCount
      = 1 := by decide

/-- C4 amended (proved): the dispatcher performs no required-field
validation.  A call to either tool with its message/summary field missing
still creates a pending record and spawns one process whose corresponding
handoff value is absent. -/
theorem C4_missing_field_not_validated (s : BridgeState) (now : Nat)
    (pn : Option String) (po : Option (List String)) (sm : Option String) :
    ((handleToolCall s now "ask_user" ⟨pn, none, po, sm⟩).2
        = ToolCallResult.pending s.nextRecordId ∧
      (handleToolCall s now "ask_user" ⟨pn, none, po, sm⟩).1.spawnCount
        = s.spawnCount + 1 ∧
      ((handleToolCall s now "ask_user" ⟨pn, none, po, sm⟩).1.spawned.head?.map
        (fun sr => sr.env.dialogMessage)) = some none) ∧
    ((handleToolCall s now "request_user_confirmation" ⟨pn, none, po, none⟩).2
        = ToolCallResult.pending s.nextRecordId ∧
      (handleToolCall s now "request_user_confirmation" ⟨pn, none, po, none⟩).1.spawnCount
        = s.spawnCount + 1 ∧
      ((handleToolCall s now "request_user_confirmation"
          ⟨pn, none, po, none⟩).1.spawned.head?.map
        (fun sr => sr.env.dialogMessage)) = some none) := by
  obtain ⟨dt, ep, pr, nr, np, kl, sp, sc⟩ := s
  cases ep <;> exact ⟨⟨rfl, rfl, rfl⟩, rfl, rfl, rfl⟩

/-- C2 counterexample: two `ask_user` calls at distinct timestamps with no
intervening terminal event reach a state where two correlation records are
pending simultaneously, refuting the at-most-one-pending invariant. -/
theorem C2_two_pending_counterexample :
    (handleToolCall (handleToolCall initState 1 "ask_user"
        ⟨some "proj", some "first question", none, none⟩).1 2 "ask_user"
        ⟨some "proj", some "second question", none, none⟩).1.pendingRequests
      = [(1, 0), (2, 1)] := by decide

/-- C2 amended (proved): at most one external process handle is alive (the
new session's process replaces the old), but the pending-request table is
not limited to one entry: starting a session with a fresh timestamp while a
record is pending leaves at least two records pending, so the 1:1
correspondence fails. -/
theorem C2_single_process_but_pending_grows (s : BridgeState) (now : Nat) (args : ToolArgs)
    (hne : s.pendingRequests ≠ [])
    (hfresh : ∀ p ∈ s.pendingRequests, p.1 ≠ now) :
    (handleToolCall s now "ask_user" args).1.electronProcess = some s.nextPid ∧
    2 ≤ (handleToolCall s now "ask_user" args).1.pendingRequests.length := by
  constructor
  · rw [handleToolCall_ask_user_eq]
    exact start_electronProcess _ _ _ _ _ _
  · have hp : (handleToolCall s now "ask_user" args).1.pendingRequests
        = s.pendingRequests ++ [(now, s.nextRecordId)] := by
      rw [handleToolCall_ask_user_eq]
      show (startElectronGUIWithData _ _ _ _ _ _).pendingRequests = _
      rw [start_pending]
      exact mapSet_fresh _ _ _ hfresh
    rw [hp, List.length_append]
    have h1 : 1 ≤ s.pendingRequests.length := by
      cases hq : s.pendingRequests with
      | nil => exact absurd hq hne
      | cons a t => simp
    simp only [List.length_singleton]
    omega

/-- C2 witness: concretely, after the two-call run the process handle is the
second pid while two records are pending. -/
theorem C2_single_process_but_pending_grows_witness :
    (handleToolCall (handleToolCall initState 1 "ask_user"
        ⟨some "proj", some "first question", none, none⟩).1 2 "ask_user"
        ⟨some "proj", some "second question", none, none⟩).1.electronProcess = some 1 ∧
    2 ≤ (handleToolCall (handleToolCall initState 1 "ask_user"
        ⟨some "proj", some "first question", none, none⟩).1 2 "ask_user"
        ⟨some "proj", some "second question", none, none⟩).1.pendingRequests.length :=
  C2_single_process_but_pending_grows _ 2 ⟨some "proj", some "second question", none, none⟩
    (by decide) (by decide)

/-- C1 counterexample: starting a second `ask_user` session while the first
is pending kills the first process (pid 0), but the first session's record
(id 0) is then fulfilled by the `TEXT_FROM_RENDERER:hello` line arriving on
the second session's stream - refuting the claim's non-cross-fulfilment
half. -/
theorem C1_cross_fulfilment_counterexample :
    (handleToolCall initState 1 "ask_user"
        ⟨some "proj", some "first question", none, none⟩).2
      = ToolCallResult.pending 0 ∧
    (handleToolCall (handleToolCall initState 1 "ask_user"
        ⟨some "proj", some "first question", none, none⟩).1 2 "ask_user"
        ⟨some "proj", some "second question", none, none⟩).1.killed = [0] ∧
    (processLine (handleToolCall (handleToolCall initState 1 "ask_user"
        ⟨some "proj", some "first question", none, none⟩).1 2 "ask_user"
        ⟨some "proj", some "second question", none, none⟩).1
      (TEXT_FROM_RENDERER_MARKER ++ "hello")).2
      = some (0, Outcome.replied "hello") := by decide

/-- C1 amended (proved): starting a second session while a first is pending
does terminate the first session's external process and install a fresh
one; but the first session's correlation record stays pending and the next
terminal response - which can only come from the second session's stream -
fulfils that first record (oldest-first resolution). -/
theorem C1_supersede_kills_but_fifo_resolves (s : BridgeState) (now : Nat) (args : ToolArgs)
    (p k r : Nat) (rest : List (Nat × Nat))
    (hproc : s.electronProcess = some p)
    (hpend : s.pendingRequests = (k, r) :: rest)
    (hfresh : ∀ q ∈ s.pendingRequests, q.1 ≠ now) :
    p ∈ (handleToolCall s now "ask_user" args).1.killed ∧
    (handleToolCall s now "ask_user" args).1.electronProcess = some s.nextPid ∧
    ∀ response : String,
      (handleUserResponse (handleToolCall s now "ask_user" args).1 response).2
        = some (r, classifyResponse response) := by
  have hSpend : (handleToolCall s now "ask_user" args).1.pendingRequests
      = (k, r) :: (rest ++ [(now, s.nextRecordId)]) := by
    rw [handleToolCall_ask_user_eq]
    show (startElectronGUIWithData _ _ _ _ _ _).pendingRequests = _
    rw [start_pending]
    show mapSet s.pendingRequests now s.nextRecordId = _
    rw [mapSet_fresh _ _ _ hfresh, hpend, List.cons_append]
  refine ⟨?_, ?_, ?_⟩
  · rw [handleToolCall_ask_user_eq]
    exact start_killed_mem _ _ _ _ _ _ p hproc
  · rw [handleToolCall_ask_user_eq]
    exact start_electronProcess _ _ _ _ _ _
  · intro response
    unfold handleUserResponse
    rw [hSpend]

/-- C1 witness: with the concrete two-call run, pid 0 is killed, pid 1 is
live, and any terminal response resolves the first session's record 0. -/
theorem C1_supersede_kills_but_fifo_resolves_witness :
    0 ∈ (handleToolCall (handleToolCall initState 1 "ask_user"
        ⟨some "proj", some "first question", none, none⟩).1 2 "ask_user"
        ⟨some "proj", some "second question", none, none⟩).1.killed ∧
    (handleToolCall (handleToolCall initState 1 "ask_user"
        ⟨some "proj", some "first question", none, none⟩).1 2 "ask_user"
        ⟨some "proj", some "second question", none, none⟩).1.electronProcess = some 1 ∧
    ∀ response : String,
      (handleUserResponse (handleToolCall (handleToolCall initState 1 "ask_user"
          ⟨some "proj", some "first question", none, none⟩).1 2 "ask_user"
          ⟨some "proj", some "second question", none, none⟩).1 response).2
        = some (0, classifyResponse response) :=
  C1_supersede_kills_but_fifo_resolves _ 2
    ⟨some "proj", some "second question", none, none⟩ 0 1 0 []
    (by decide) (by decide) (by decide)

